import Mathlib

/-!
Verification of the substra SDK REST client core (`substra/sdk/rest_client.py`)
and the profile configuration store (`substra/sdk/config.py`).

The HTTP wire layer (the `requests` library) is modelled as an oracle: every
call to `requests.get` / `requests.post` has an `HttpOutcome` describing what
the library surfaced (a connection failure, a transport timeout, or a
`Response` object).  `Response.raise_for_status` raises `HTTPError` exactly
for status codes in `[400, 600)`; this is the documented behaviour of the
`requests` library and is embedded directly in `execRequest` below.

Strings manipulated character-wise (URLs) are modelled as `List Char`;
other strings stay `String`.
-/

namespace Substra

/-- Json values, as produced by `response.json()`.  `obj` keeps fields as an
association list. -/
inductive JsonVal where
  | null
  | bool (b : Bool)
  | num (n : Int)
  | str (s : String)
  | list (xs : List JsonVal)
  | obj (fields : List (String × JsonVal))
deriving Repr

/-- Lookup of a field in a Json object body (Python `r[key]` / `r.get(key)`). -/
def jLookup (key : String) : List (String × JsonVal) → Option JsonVal
  | [] => none
  | (k, v) :: rest => if k = key then some v else jLookup key rest

/-- An HTTP response object, as surfaced by the `requests` library.
`body = none` models a body that cannot be parsed as JSON (so that
`response.json()` raises `ValueError`); `body = some v` models a body parsing
to `v`. -/
structure Response where
  statusCode : Nat
  body : Option JsonVal
deriving Repr

/-- The key(s) attached to a 408/409 exception: either a single key or a list
of keys (the Python code distinguishes them with `isinstance(key, list)`). -/
inductive PkHash where
  | single (k : String)
  | many (ks : List String)
deriving Repr

/-- Modelled from the spec: `substra.sdk.exceptions.*.from_request_exception`
(the `exceptions` module is not under `src/`) extracts the conflicting
resource key(s) from the `pkhash` field of the response body — a single key
for an object body, a list of keys for a list body. -/
def extractPkhash (r : Response) : PkHash :=
  match r.body with
  | some (JsonVal.obj fields) =>
    match jLookup "pkhash" fields with
    | some (JsonVal.str s) => PkHash.single s
    | _ => PkHash.single ""
  | some (JsonVal.list xs) =>
    PkHash.many (xs.filterMap fun x =>
      match x with
      | JsonVal.obj fields =>
        match jLookup "pkhash" fields with
        | some (JsonVal.str s) => some s
        | _ => none
      | _ => none)
  | _ => PkHash.single ""

/-- The exception taxonomy of `substra.sdk.exceptions`, restricted to what the
REST client raises.  `requestTimeout` and `alreadyExists` carry the key(s)
extracted from the response body; `invalidResponse` carries the raw
response. -/
inductive SdkError where
  | connectionError
  | timeout
  | invalidRequest
  | authenticationError
  | authorizationError
  | notFound
  | requestTimeout (pkhash : PkHash)
  | alreadyExists (pkhash : PkHash)
  | internalServerError
  | httpError
  | invalidResponse (response : Response)
  | notImplementedError
deriving Repr

/-- Outcome of one wire-level call made by the `requests` library:
a network-level connection failure (`requests.exceptions.ConnectionError`),
a transport timeout (`requests.exceptions.Timeout`), or a response object. -/
inductive HttpOutcome where
  | connError
  | timeoutErr
  | response (r : Response)
deriving Repr

/-- Embedding of `Client._request` (rest_client.py lines 54-105): performs the
wire call (its outcome is the argument), lets `raise_for_status` classify
status codes in `[400, 600)` as `requests.exceptions.HTTPError`, and maps each
failure to the exception taxonomy.  Connection failures and timeouts are
caught before any status-code mapping. -/
def execRequest : HttpOutcome → Except SdkError Response
  | HttpOutcome.connError => Except.error SdkError.connectionError
  | HttpOutcome.timeoutErr => Except.error SdkError.timeout
  | HttpOutcome.response r =>
    if 400 ≤ r.statusCode ∧ r.statusCode < 600 then
      if r.statusCode = 400 then Except.error SdkError.invalidRequest
      else if r.statusCode = 401 then Except.error SdkError.authenticationError
      else if r.statusCode = 403 then Except.error SdkError.authorizationError
      else if r.statusCode = 404 then Except.error SdkError.notFound
      else if r.statusCode = 408 then Except.error (SdkError.requestTimeout (extractPkhash r))
      else if r.statusCode = 409 then Except.error (SdkError.alreadyExists (extractPkhash r))
      else if r.statusCode = 500 then Except.error SdkError.internalServerError
      else Except.error SdkError.httpError
    else
      Except.ok r

/-- C1 counterexample helper value: a 304 Not Modified response. -/
def resp304 : Response := { statusCode := 304, body := some JsonVal.null }

/-- Character-list strings, for URL manipulation. -/
abbrev Str := List Char

/-- Model of Python `url.endswith("/")`: the last character is a slash
(false on the empty string). -/
def endsWithSlash (s : Str) : Bool := s.getLast? == some '/'

/-- Embedding of the URL construction in `Client.request` (rest_client.py
lines 111-114): `path = path or ''`, then
`url = f"{base_url}/{to_server_name(asset_name)}/{path}"`, then a `/` is
appended when the url does not already end with one.  `serverName` stands for
`assets.to_server_name(asset_name)`, which is opaque here. -/
def buildUrl (baseUrl serverName : Str) (path : Option Str) : Str :=
  let p : Str := path.getD []
  let url : Str := baseUrl ++ ['/'] ++ serverName ++ ['/'] ++ p
  if endsWithSlash url then url else url ++ ['/']

/-- The URL formula as the spec words it, for comparison with `buildUrl`:
the target URL is `{base_url}/{server_name}/{path or ''}/`. -/
def specUrlFormula (baseUrl serverName : Str) (path : Option Str) : Str :=
  baseUrl ++ ['/'] ++ serverName ++ ['/'] ++ path.getD [] ++ ['/']

/-- Result of `Client.request`: the raw response when `json_response` is
false, the parsed JSON body otherwise. -/
inductive ReqResult where
  | raw (r : Response)
  | json (v : JsonVal)
deriving Repr

/-- Embedding of `Client.request` (rest_client.py lines 107-129) after the
URL construction: delegates to `_request` and, when `json_response` is true,
parses the body as JSON, raising `InvalidResponse` carrying the raw response
when parsing fails. -/
def clientRequest (jsonResponse : Bool) (outcome : HttpOutcome) :
    Except SdkError ReqResult :=
  match execRequest outcome with
  | Except.error e => Except.error e
  | Except.ok r =>
    if jsonResponse then
      match r.body with
      | some v => Except.ok (ReqResult.json v)
      | none => Except.error (SdkError.invalidResponse r)
    else
      Except.ok (ReqResult.raw r)

/-- Test for `isinstance(i, list)` on a Json value. -/
def isJsonList : JsonVal → Bool
  | JsonVal.list _ => true
  | _ => false

/-- Modelled from the spec: `utils.flatten` (the `utils` module is not under
`src/`) flattens a list of lists into the single-level, in-order
concatenation of the inner lists.  It is only reached when every element is a
list; a non-list element is kept as-is. -/
def flattenLists (xs : List JsonVal) : List JsonVal :=
  xs.foldr
    (fun x acc =>
      match x with
      | JsonVal.list ys => ys ++ acc
      | other => other :: acc)
    []

/-- Embedding of the response post-processing in `Client.list` (rest_client.py
lines 139-156): when the parsed response is a list all of whose elements are
lists, it is flattened; otherwise it is returned unchanged. -/
def clientList (items : JsonVal) : JsonVal :=
  match items with
  | JsonVal.list xs =>
    if xs.all isJsonList then JsonVal.list (flattenLists xs) else JsonVal.list xs
  | v => v

/-- Test for `isinstance(e, exceptions.NotFound)` in the retry helper. -/
def isNotFound : SdkError → Bool
  | SdkError.notFound => true
  | _ => false

/-- Modelled from the spec: `utils.retry_on_exception` (the `utils` module is
not under `src/`) polls the wrapped call, retrying only on `NotFound`, until
it succeeds or fails otherwise, or the retry budget elapses, and then
propagates the last failure.  The wall-clock `retry_timeout` is modelled as a
budget of `fuel` retries after the first attempt; `get1 i` is the outcome of
the `i`-th call of `self.get(name, key)`.  The second component of the result
counts how many times `get` was invoked. -/
def retryGet (get1 : Nat → Except SdkError JsonVal) (i : Nat) :
    Nat → Except SdkError JsonVal × Nat
  | 0 => (get1 i, 1)
  | fuel + 1 =>
    match get1 i with
    | Except.error e =>
      if isNotFound e then
        let r := retryGet get1 (i + 1) fuel
        (r.1, r.2 + 1)
      else (Except.error e, 1)
    | Except.ok v => (Except.ok v, 1)

/-- Embedding of `Client.add` (rest_client.py lines 158-199).  The POST
outcome is the `post` argument; `gets k i` is the outcome of the `i`-th call
of `self.get(name, k)`.  On `RequestTimeout` with a single key and a nonzero
`retry_timeout`, the result is polled through `retryGet`; with a list key or
a zero `retry_timeout` the exception is re-raised.  On `AlreadyExists`, the
exception is re-raised unless `exist_ok` is true and the key is single, in
which case the existing asset is fetched with one `get` call.  The second
component of the result counts how many times `get` was invoked. -/
def clientAdd (retryTimeout : Nat) (existOk : Bool) (fuel : Nat)
    (post : Except SdkError JsonVal)
    (gets : String → Nat → Except SdkError JsonVal) :
    Except SdkError JsonVal × Nat :=
  match post with
  | Except.ok v => (Except.ok v, 0)
  | Except.error (SdkError.requestTimeout key) =>
    match key with
    | PkHash.many ks =>
      (Except.error (SdkError.requestTimeout (PkHash.many ks)), 0)
    | PkHash.single k =>
      if retryTimeout = 0 then
        (Except.error (SdkError.requestTimeout (PkHash.single k)), 0)
      else
        retryGet (gets k) 0 fuel
  | Except.error (SdkError.alreadyExists key) =>
    if existOk then
      match key with
      | PkHash.many ks =>
        (Except.error (SdkError.alreadyExists (PkHash.many ks)), 0)
      | PkHash.single k => (gets k 0, 1)
    else
      (Except.error (SdkError.alreadyExists key), 0)
  | Except.error e => (Except.error e, 0)

/-- A concrete `get` oracle: `NotFound` on the first two calls, then an
asset. -/
def getsExample : String → Nat → Except SdkError JsonVal :=
  fun _ i =>
    if i < 2 then Except.error SdkError.notFound
    else Except.ok (JsonVal.str "asset")

/-- A profile value, as built by `create_profile` (config.py lines 44-59).
The `auth` field is `none` for the Python literal `False` and an
association-list dict otherwise. -/
structure ProfileCfg where
  url : String
  version : String
  insecure : Bool
  auth : Option (List (String × String))
deriving Repr, DecidableEq

/-- Python truthiness of an optional string: `None` and the empty string are
falsy. -/
def truthy : Option String → Bool
  | none => false
  | some s => s != ""

/-- Embedding of `create_profile` (config.py lines 44-59): when username and
password are both truthy the auth dict has keys `username` and `password`,
otherwise auth is `False`. -/
def create_profile (url version : String) (insecure : Bool)
    (username password : Option String) : ProfileCfg :=
  if truthy username && truthy password then
    { url := url, version := version, insecure := insecure,
      auth := some [("username", username.getD ""), ("password", password.getD "")] }
  else
    { url := url, version := version, insecure := insecure, auth := none }

/-- Dict lookup `d[key]`; `none` models a Python `KeyError`. -/
def lookupStr (key : String) : List (String × String) → Option String
  | [] => none
  | (k, v) :: rest => if k = key then some v else lookupStr key rest

/-- A raw Python `KeyError` escaping from the client code; it is not part of
the SDK exception taxonomy. -/
inductive KeyLookupError where
  | keyError (key : String)
deriving Repr, DecidableEq

/-- Internal attributes set by `Client.set_config`: the default HTTP headers,
the default request keyword arguments (basic-auth pair and the `verify`
flag), and the stored base URL. -/
structure ClientState where
  headers : List (String × String)
  authKwarg : Option (String × String)
  verifyKwarg : Option Bool
  base_url : Str
deriving Repr, DecidableEq

/-- Embedding of `Client.set_config` (rest_client.py lines 36-52): when the
config's auth entry is truthy it reads `config['auth']['user']` and
`config['auth']['password']` (a Python `KeyError` surfaces when the dict has
no such key), sets `verify=False` when `insecure` is truthy, builds the
Accept header from the version, and strips one trailing slash from the
url. -/
def set_config (config : ProfileCfg) : Except KeyLookupError ClientState :=
  let authStep : Except KeyLookupError (Option (String × String)) :=
    match config.auth with
    | some authDict =>
      match lookupStr "user" authDict with
      | none => Except.error (KeyLookupError.keyError "user")
      | some user =>
        match lookupStr "password" authDict with
        | none => Except.error (KeyLookupError.keyError "password")
        | some password => Except.ok (some (user, password))
    | none => Except.ok none
  match authStep with
  | Except.error e => Except.error e
  | Except.ok authKw =>
    Except.ok
      { headers := [("Accept", "application/json;version=" ++ config.version)],
        authKwarg := authKw,
        verifyKwarg := if config.insecure then some false else none,
        base_url :=
          if endsWithSlash config.url.toList then config.url.toList.dropLast
          else config.url.toList }

/-- State of the config file at a given path: absent, present but not
parseable as JSON, or parsed into a mapping from profile names to
profiles. -/
inductive FileState where
  | absent
  | malformed
  | wellFormed (config : List (String × ProfileCfg))
deriving Repr

/-- The faults raised by config.py: the builtin `FileNotFoundError`, the
`ConfigException` raised on a parse failure, and its subclass
`ProfileNotFoundError`. -/
inductive ConfigFault where
  | fileNotFound
  | configException
  | profileNotFound (name : String)
deriving Repr, DecidableEq

/-- Embedding of `_read_config` (config.py lines 31-36): `open` raises
`FileNotFoundError` on an absent file; a present file whose body is not
valid JSON raises `ConfigException`. -/
def _read_config : FileState → Except ConfigFault (List (String × ProfileCfg))
  | FileState.absent => Except.error ConfigFault.fileNotFound
  | FileState.malformed => Except.error ConfigFault.configException
  | FileState.wellFormed config => Except.ok config

/-- Dict update `config[name] = profile` / `config[name].update(profile)`
(config.py lines 74-77): since a created profile carries exactly the fields
url, version, insecure and auth, `dict.update` with it overwrites every
field of an existing entry, so both branches store `profile` under
`name`. -/
def setProfile (config : List (String × ProfileCfg)) (name : String)
    (profile : ProfileCfg) : List (String × ProfileCfg) :=
  match config with
  | [] => [(name, profile)]
  | (n, p) :: rest =>
    if n = name then (n, profile) :: rest
    else (n, p) :: setProfile rest name profile

/-- Dict lookup `config[name]`. -/
def getProfile (config : List (String × ProfileCfg)) (name : String) :
    Option ProfileCfg :=
  match config with
  | [] => none
  | (n, p) :: rest => if n = name then some p else getProfile rest name

/-- The profile stored under `default` in `DEFAULT_CONFIG` (config.py lines
13-20). -/
def defaultProfile : ProfileCfg :=
  { url := "http://127.0.0.1:8000", version := "0.0", insecure := false,
    auth := none }

/-- The built-in default configuration (config.py lines 13-20). -/
def DEFAULT_CONFIG : List (String × ProfileCfg) := [("default", defaultProfile)]

/-- Embedding of `_add_profile` (config.py lines 62-80): reads the config
file, substituting a copy of `DEFAULT_CONFIG` when the file is absent (any
other read failure propagates), creates the profile, stores it under `name`,
writes the config back and returns it. -/
def _add_profile (fs : FileState) (name : String) (url version : String)
    (insecure : Bool) (username password : Option String) :
    Except ConfigFault (FileState × List (String × ProfileCfg)) :=
  match fs with
  | FileState.malformed => Except.error ConfigFault.configException
  | FileState.absent =>
    let config := setProfile DEFAULT_CONFIG name
      (create_profile url version insecure username password)
    Except.ok (FileState.wellFormed config, config)
  | FileState.wellFormed c =>
    let config := setProfile c name
      (create_profile url version insecure username password)
    Except.ok (FileState.wellFormed config, config)

/-- Embedding of `_load_profile` (config.py lines 83-95): reads the config
file and looks the profile up, raising `ProfileNotFoundError` when the name
is absent. -/
def _load_profile (fs : FileState) (name : String) :
    Except ConfigFault ProfileCfg :=
  match _read_config fs with
  | Except.error e => Except.error e
  | Except.ok config =>
    match getProfile config name with
    | some p => Except.ok p
    | none => Except.error (ConfigFault.profileNotFound name)

end Substra

/-- C1: the claim states that every non-2xx status code other than the seven
mapped ones raises the generic `HTTPError`.  Counterexample: a 304 (non-2xx)
response is returned unchanged by `_request`, because
`Response.raise_for_status` only raises for status codes in `[400, 600)`. -/
theorem c1_counterexample :
    Substra.execRequest (Substra.HttpOutcome.response Substra.resp304) =
      Except.ok Substra.resp304 ∧
    Except.ok Substra.resp304 ≠
      (Except.error Substra.SdkError.httpError :
        Except Substra.SdkError Substra.Response) := by
  exact ⟨rfl, by intro h; exact Except.noConfusion h⟩

/-- C1 (amended): for status codes in {400,401,403,404,408,409,500} `_request`
raises exactly the mapped exception kind; every OTHER status code in
`[400, 600)` raises the generic `HTTPError`; a status code outside `[400, 600)`
returns the response unchanged (only 4xx/5xx are surfaced as `HTTPError` by
`raise_for_status`); a connection failure raises `ConnectionError` and a
transport timeout raises `Timeout`, before any status-code mapping. -/
theorem c1_amended (r : Substra.Response) :
    Substra.execRequest Substra.HttpOutcome.connError =
      Except.error Substra.SdkError.connectionError ∧
    Substra.execRequest Substra.HttpOutcome.timeoutErr =
      Except.error Substra.SdkError.timeout ∧
    (r.statusCode = 400 →
      Substra.execRequest (Substra.HttpOutcome.response r) =
        Except.error Substra.SdkError.invalidRequest) ∧
    (r.statusCode = 401 →
      Substra.execRequest (Substra.HttpOutcome.response r) =
        Except.error Substra.SdkError.authenticationError) ∧
    (r.statusCode = 403 →
      Substra.execRequest (Substra.HttpOutcome.response r) =
        Except.error Substra.SdkError.authorizationError) ∧
    (r.statusCode = 404 →
      Substra.execRequest (Substra.HttpOutcome.response r) =
        Except.error Substra.SdkError.notFound) ∧
    (r.statusCode = 408 →
      Substra.execRequest (Substra.HttpOutcome.response r) =
        Except.error (Substra.SdkError.requestTimeout (Substra.extractPkhash r))) ∧
    (r.statusCode = 409 →
      Substra.execRequest (Substra.HttpOutcome.response r) =
        Except.error (Substra.SdkError.alreadyExists (Substra.extractPkhash r))) ∧
    (r.statusCode = 500 →
      Substra.execRequest (Substra.HttpOutcome.response r) =
        Except.error Substra.SdkError.internalServerError) ∧
    (400 ≤ r.statusCode → r.statusCode < 600 →
      r.statusCode ∉ ([400, 401, 403, 404, 408, 409, 500] : List Nat) →
      Substra.execRequest (Substra.HttpOutcome.response r) =
        Except.error Substra.SdkError.httpError) ∧
    (¬ (400 ≤ r.statusCode ∧ r.statusCode < 600) →
      Substra.execRequest (Substra.HttpOutcome.response r) =
        Except.ok r) := by
  refine ⟨rfl, rfl, ?_, ?_, ?_, ?_, ?_, ?_, ?_, ?_, ?_⟩
  all_goals intro h
  case _ => simp [Substra.execRequest, h]
  case _ => simp [Substra.execRequest, h]
  case _ => simp [Substra.execRequest, h]
  case _ => simp [Substra.execRequest, h]
  case _ => simp [Substra.execRequest, h]
  case _ => simp [Substra.execRequest, h]
  case _ => simp [Substra.execRequest, h]
  case _ =>
    intro h2 h3
    simp only [List.mem_cons, List.not_mem_nil] at h3
    push_neg at h3
    obtain ⟨n400, n401, n403, n404, n408, n409, n500⟩ := h3
    simp [Substra.execRequest, h, h2, n400, n401, n403, n404, n408, n409, n500]
  case _ => simp [Substra.execRequest, h]

/-- C1 amended witness: instantiation at the 418 status code, which maps to
the generic `HTTPError`. -/
theorem c1_amended_witness :
    Substra.execRequest
        (Substra.HttpOutcome.response { statusCode := 418, body := none }) =
      Except.error Substra.SdkError.httpError := by
  have h := c1_amended { statusCode := 418, body := none }
  exact h.2.2.2.2.2.2.2.2.2.1 (by decide) (by decide) (by decide)

/-- C7: when the HTTP exchange succeeds but the body cannot be parsed as
JSON, `request` with `json_response=True` raises `InvalidResponse` carrying
the original raw response; when the body parses, the parsed JSON value is
returned. -/
theorem c7_json_response (o : Substra.HttpOutcome) (r : Substra.Response)
    (h : Substra.execRequest o = Except.ok r) :
    (r.body = none →
      Substra.clientRequest true o =
        Except.error (Substra.SdkError.invalidResponse r)) ∧
    (∀ v, r.body = some v →
      Substra.clientRequest true o = Except.ok (Substra.ReqResult.json v)) := by
  constructor
  · intro hb
    simp [Substra.clientRequest, h, hb]
  · intro v hb
    simp [Substra.clientRequest, h, hb]

/-- C7 witness: a 200 response with an unparseable body raises
`InvalidResponse` carrying it; a 200 response whose body parses to `"x"`
returns `"x"`. -/
theorem c7_json_response_witness :
    Substra.clientRequest true
        (Substra.HttpOutcome.response { statusCode := 200, body := none }) =
      Except.error
        (Substra.SdkError.invalidResponse { statusCode := 200, body := none }) ∧
    Substra.clientRequest true
        (Substra.HttpOutcome.response
          { statusCode := 200, body := some (Substra.JsonVal.str "x") }) =
      Except.ok (Substra.ReqResult.json (Substra.JsonVal.str "x")) := by
  constructor
  · exact (c7_json_response
      (Substra.HttpOutcome.response { statusCode := 200, body := none })
      { statusCode := 200, body := none } rfl).1 rfl
  · exact (c7_json_response
      (Substra.HttpOutcome.response
        { statusCode := 200, body := some (Substra.JsonVal.str "x") })
      { statusCode := 200, body := some (Substra.JsonVal.str "x") } rfl).2
      (Substra.JsonVal.str "x") rfl

/-- Helper: a string obtained by appending a slash ends with a slash. -/
theorem endsWithSlash_append_slash (s : Substra.Str) :
    Substra.endsWithSlash (s ++ ['/']) = true := by
  simp [Substra.endsWithSlash, List.getLast?_append_cons]

/-- Helper: appending a non-empty string determines the trailing slash. -/
theorem endsWithSlash_append (s q : Substra.Str) (hne : q ≠ []) :
    Substra.endsWithSlash (s ++ q) = Substra.endsWithSlash q := by
  simp [Substra.endsWithSlash, List.getLast?_append_of_ne_nil _ hne]

/-- C8 counterexample: with no path (`path = None`), the claim's formula
`{base_url}/{server_name}/{path or ''}/` yields a double trailing slash,
while the code appends a slash only when the URL does not already end with
one.  At base `http://e` and server name `algo` the code produces
`http://e/algo/` and the formula produces `http://e/algo//`. -/
theorem c8_counterexample :
    Substra.buildUrl "http://e".toList "algo".toList none =
      "http://e/algo/".toList ∧
    Substra.specUrlFormula "http://e".toList "algo".toList none =
      "http://e/algo//".toList ∧
    Substra.buildUrl "http://e".toList "algo".toList none ≠
      Substra.specUrlFormula "http://e".toList "algo".toList none := by
  refine ⟨by decide, by decide, by decide⟩

/-- C8 (amended): the built URL always ends with a trailing slash; when the
path is present, non-empty and does not itself end with a slash, the built
URL is exactly `{base_url}/{server_name}/{path}/` as the claim states; when
the path is absent the built URL is `{base_url}/{server_name}/` (the claim's
formula would add a second trailing slash). -/
theorem c8_amended (baseUrl serverName : Substra.Str)
    (path : Option Substra.Str) :
    Substra.endsWithSlash (Substra.buildUrl baseUrl serverName path) = true ∧
    (∀ q, path = some q → q ≠ [] → q.getLast? ≠ some '/' →
      Substra.buildUrl baseUrl serverName path =
        Substra.specUrlFormula baseUrl serverName path) ∧
    Substra.buildUrl baseUrl serverName none =
      baseUrl ++ ['/'] ++ serverName ++ ['/'] := by
  refine ⟨?_, ?_, ?_⟩
  · simp only [Substra.buildUrl]
    by_cases h : Substra.endsWithSlash
      (baseUrl ++ ['/'] ++ serverName ++ ['/'] ++ path.getD []) = true
    · rw [if_pos h]; exact h
    · rw [if_neg h]; exact endsWithSlash_append_slash _
  · rintro q rfl hne hlast
    have hslash : Substra.endsWithSlash
        (baseUrl ++ ['/'] ++ serverName ++ ['/'] ++ (some q).getD []) = false := by
      simp only [Option.getD_some]
      rw [endsWithSlash_append _ q hne]
      simp only [Substra.endsWithSlash, beq_eq_false_iff_ne, ne_eq]
      exact hlast
    simp only [Substra.buildUrl, Substra.specUrlFormula]
    rw [if_neg (by rw [hslash]; exact Bool.false_ne_true)]
  · simp only [Substra.buildUrl, Substra.specUrlFormula, Option.getD_none,
      List.append_nil]
    rw [if_pos (endsWithSlash_append_slash (baseUrl ++ ['/'] ++ serverName))]

/-- C8 amended witness: at base `http://e`, server name `algo` and path
`42`, the built URL ends with a slash and equals the claim's formula
`http://e/algo/42/`. -/
theorem c8_amended_witness :
    Substra.endsWithSlash
      (Substra.buildUrl "http://e".toList "algo".toList (some "42".toList)) =
      true ∧
    Substra.buildUrl "http://e".toList "algo".toList (some "42".toList) =
      Substra.specUrlFormula "http://e".toList "algo".toList
        (some "42".toList) := by
  have h := c8_amended "http://e".toList "algo".toList (some "42".toList)
  exact ⟨h.1, h.2.1 "42".toList rfl (by decide) (by decide)⟩

/-- Helper: flattening a list of Json lists is the concatenation of the
underlying lists. -/
theorem flattenLists_map_list (xss : List (List Substra.JsonVal)) :
    Substra.flattenLists (xss.map Substra.JsonVal.list) = xss.flatten := by
  induction xss with
  | nil => rfl
  | cons hd tl ih =>
    simp only [List.map_cons, Substra.flattenLists, List.foldr_cons] at ih ⊢
    rw [ih, List.flatten_cons]

/-- C5: a response that is a list in which every element is itself a list is
flattened into the in-order concatenation of the inner lists; a list
response with some non-list element is returned unchanged. -/
theorem c5_list_flatten (xss : List (List Substra.JsonVal))
    (xs : List Substra.JsonVal) :
    Substra.clientList (Substra.JsonVal.list (xss.map Substra.JsonVal.list)) =
      Substra.JsonVal.list xss.flatten ∧
    (xs.all Substra.isJsonList = false →
      Substra.clientList (Substra.JsonVal.list xs) = Substra.JsonVal.list xs) := by
  constructor
  · have hall : (xss.map Substra.JsonVal.list).all Substra.isJsonList = true := by
      rw [List.all_eq_true]
      intro x hx
      rcases List.mem_map.mp hx with ⟨ys, _, h⟩
      rw [← h]
      rfl
    simp [Substra.clientList, hall, flattenLists_map_list]
  · intro hxs
    simp [Substra.clientList, hxs]

/-- C5 witness: the response `[["a"], ["b", "c"]]` flattens to
`["a", "b", "c"]`; the plain list `["a", ["b"]]` is returned unchanged. -/
theorem c5_list_flatten_witness :
    Substra.clientList
        (Substra.JsonVal.list
          [Substra.JsonVal.list [Substra.JsonVal.str "a"],
           Substra.JsonVal.list [Substra.JsonVal.str "b", Substra.JsonVal.str "c"]]) =
      Substra.JsonVal.list
        [Substra.JsonVal.str "a", Substra.JsonVal.str "b", Substra.JsonVal.str "c"] ∧
    Substra.clientList
        (Substra.JsonVal.list
          [Substra.JsonVal.str "a", Substra.JsonVal.list [Substra.JsonVal.str "b"]]) =
      Substra.JsonVal.list
        [Substra.JsonVal.str "a", Substra.JsonVal.list [Substra.JsonVal.str "b"]] := by
  constructor
  · exact (c5_list_flatten
      [[Substra.JsonVal.str "a"], [Substra.JsonVal.str "b", Substra.JsonVal.str "c"]]
      []).1
  · exact (c5_list_flatten []
      [Substra.JsonVal.str "a", Substra.JsonVal.list [Substra.JsonVal.str "b"]]).2 rfl

/-- Helper: when every `get` call returns `NotFound`, the retry loop exhausts
its budget, propagates the last `NotFound` and makes `fuel + 1` calls. -/
theorem retryGet_all_notFound (get1 : Nat → Except Substra.SdkError Substra.JsonVal)
    (h : ∀ j, get1 j = Except.error Substra.SdkError.notFound) :
    ∀ fuel i, Substra.retryGet get1 i fuel =
      (Except.error Substra.SdkError.notFound, fuel + 1) := by
  intro fuel
  induction fuel with
  | zero => intro i; simp [Substra.retryGet, h i]
  | succ f ih =>
    intro i
    simp [Substra.retryGet, h i, Substra.isNotFound, ih (i + 1)]

/-- C2: on a single-key 408 with nonzero `retry_timeout`, `add` polls `get`,
retrying only on `NotFound`: given the `get` sequence `NotFound, NotFound,
success`, `add` succeeds with the `get` result and `get` is invoked exactly 3
times; a non-`NotFound` failure of `get` propagates at once; when the retry
budget elapses with only `NotFound` results, the last `NotFound` is
propagated. -/
theorem c2_add_retries_on_timeout (k : String) (retryTimeout fuel : Nat)
    (existOk : Bool)
    (gets : String → Nat → Except Substra.SdkError Substra.JsonVal)
    (v : Substra.JsonVal) (e : Substra.SdkError)
    (hrt : retryTimeout ≠ 0) :
    (gets k 0 = Except.error Substra.SdkError.notFound →
     gets k 1 = Except.error Substra.SdkError.notFound →
     gets k 2 = Except.ok v → 2 ≤ fuel →
      Substra.clientAdd retryTimeout existOk fuel
        (Except.error (Substra.SdkError.requestTimeout (Substra.PkHash.single k)))
        gets = (Except.ok v, 3)) ∧
    (gets k 0 = Except.error e → Substra.isNotFound e = false →
      Substra.clientAdd retryTimeout existOk fuel
        (Except.error (Substra.SdkError.requestTimeout (Substra.PkHash.single k)))
        gets = (Except.error e, 1)) ∧
    ((∀ j, gets k j = Except.error Substra.SdkError.notFound) →
      Substra.clientAdd retryTimeout existOk fuel
        (Except.error (Substra.SdkError.requestTimeout (Substra.PkHash.single k)))
        gets = (Except.error Substra.SdkError.notFound, fuel + 1)) := by
  have hadd : Substra.clientAdd retryTimeout existOk fuel
      (Except.error (Substra.SdkError.requestTimeout (Substra.PkHash.single k)))
      gets = Substra.retryGet (gets k) 0 fuel := by
    simp [Substra.clientAdd, hrt]
  refine ⟨?_, ?_, ?_⟩
  · intro h0 h1 h2 hfuel
    rw [hadd]
    obtain ⟨m, rfl⟩ : ∃ m, fuel = m + 2 := ⟨fuel - 2, by omega⟩
    cases m with
    | zero => simp [Substra.retryGet, h0, h1, h2, Substra.isNotFound]
    | succ m => simp [Substra.retryGet, h0, h1, h2, Substra.isNotFound]
  · intro h0 hne
    rw [hadd]
    cases fuel with
    | zero => simp [Substra.retryGet, h0]
    | succ f => simp [Substra.retryGet, h0, hne]
  · intro hall
    rw [hadd]
    exact retryGet_all_notFound (gets k) hall fuel 0

/-- C2 witness: with `retry_timeout = 300` and a `get` oracle answering
`NotFound, NotFound, asset`, the overall `add` succeeds and `get` is invoked
exactly 3 times. -/
theorem c2_add_retries_on_timeout_witness :
    Substra.clientAdd 300 false 5
      (Except.error (Substra.SdkError.requestTimeout (Substra.PkHash.single "k1")))
      Substra.getsExample = (Except.ok (Substra.JsonVal.str "asset"), 3) := by
  exact (c2_add_retries_on_timeout "k1" 300 5 false Substra.getsExample
    (Substra.JsonVal.str "asset") Substra.SdkError.connectionError
    (by decide)).1 rfl rfl rfl (by decide)

/-- C3: on a 408 or a 409 whose attached key is a list (bulk operation),
`add` re-raises the original exception at once, never invoking `get`,
whatever `retry_timeout` and `exist_ok` are. -/
theorem c3_bulk_reraised (retryTimeout fuel : Nat) (existOk : Bool)
    (gets : String → Nat → Except Substra.SdkError Substra.JsonVal)
    (ks : List String) :
    Substra.clientAdd retryTimeout existOk fuel
      (Except.error (Substra.SdkError.requestTimeout (Substra.PkHash.many ks)))
      gets =
      (Except.error (Substra.SdkError.requestTimeout (Substra.PkHash.many ks)), 0) ∧
    Substra.clientAdd retryTimeout existOk fuel
      (Except.error (Substra.SdkError.alreadyExists (Substra.PkHash.many ks)))
      gets =
      (Except.error (Substra.SdkError.alreadyExists (Substra.PkHash.many ks)), 0) := by
  constructor
  · rfl
  · cases existOk <;> rfl

/-- C4: on a 409 with a single conflicting key, `add` with `exist_ok=False`
re-raises `AlreadyExists` carrying the key extracted from the response body
(a 409 response with body containing `pkhash` equal to `42` raises
`AlreadyExists` with key `42`); with `exist_ok=True` it returns exactly what
`get` returns on the conflicting key, and `get` is called exactly once. -/
theorem c4_already_exists (retryTimeout fuel : Nat)
    (gets : String → Nat → Except Substra.SdkError Substra.JsonVal)
    (k : String) :
    Substra.clientAdd retryTimeout false fuel
      (Except.error (Substra.SdkError.alreadyExists (Substra.PkHash.single k)))
      gets =
      (Except.error (Substra.SdkError.alreadyExists (Substra.PkHash.single k)), 0) ∧
    Substra.clientAdd retryTimeout true fuel
      (Except.error (Substra.SdkError.alreadyExists (Substra.PkHash.single k)))
      gets = (gets k 0, 1) ∧
    Substra.execRequest
      (Substra.HttpOutcome.response
        { statusCode := 409,
          body := some (Substra.JsonVal.obj [("pkhash", Substra.JsonVal.str "42")]) }) =
      Except.error (Substra.SdkError.alreadyExists (Substra.PkHash.single "42")) := by
  exact ⟨rfl, rfl, rfl⟩

/-- C6 (code bug): `Client.set_config` reads the basic-auth credentials from
the keys `user` and `password` of the auth dict, but `create_profile`
(config.py) builds that dict with the keys `username` and `password`; on
every profile with credentials, `set_config` hits a `KeyError` on `user`
instead of installing the credentials. -/
theorem c6_auth_key_mismatch :
    Substra.create_profile "http://foo" "0.0" false (some "jane") (some "pw") =
      { url := "http://foo", version := "0.0", insecure := false,
        auth := some [("username", "jane"), ("password", "pw")] } ∧
    Substra.set_config
        { url := "http://foo", version := "0.0", insecure := false,
          auth := some [("username", "jane"), ("password", "pw")] } =
      Except.error (Substra.KeyLookupError.keyError "user") := by
  exact ⟨rfl, rfl⟩

/-- Helper: looking up the name just stored finds the stored profile. -/
theorem getProfile_setProfile_self (config : List (String × Substra.ProfileCfg))
    (name : String) (profile : Substra.ProfileCfg) :
    Substra.getProfile (Substra.setProfile config name profile) name =
      some profile := by
  induction config with
  | nil => simp [Substra.setProfile, Substra.getProfile]
  | cons hd tl ih =>
    obtain ⟨n, p⟩ := hd
    by_cases h : n = name
    · simp [Substra.setProfile, Substra.getProfile, h]
    · simp [Substra.setProfile, Substra.getProfile, h, ih]

/-- Helper: storing under one name leaves lookups of other names
unchanged. -/
theorem getProfile_setProfile_other (config : List (String × Substra.ProfileCfg))
    (name other : String) (profile : Substra.ProfileCfg) (h : other ≠ name) :
    Substra.getProfile (Substra.setProfile config name profile) other =
      Substra.getProfile config other := by
  induction config with
  | nil => simp [Substra.setProfile, Substra.getProfile, Ne.symm h]
  | cons hd tl ih =>
    obtain ⟨n, p⟩ := hd
    by_cases hn : n = name
    · subst hn
      simp [Substra.setProfile, Substra.getProfile, Ne.symm h]
    · simp [Substra.setProfile, Substra.getProfile, hn, ih]

/-- C9: adding a profile and then loading it by the same name from the
resulting store returns the profile that was created; loading a name absent
from a store raises `ProfileNotFoundError`; loading when no config file
exists raises `FileNotFoundError`, which is distinct from the parse fault
`ConfigException`. -/
theorem c9_profile_roundtrip (fs fs2 : Substra.FileState)
    (name url version : String) (insecure : Bool)
    (username password : Option String)
    (cfg : List (String × Substra.ProfileCfg)) :
    (Substra._add_profile fs name url version insecure username password =
        Except.ok (fs2, cfg) →
      Substra._load_profile fs2 name =
        Except.ok (Substra.create_profile url version insecure username password)) ∧
    (∀ c, Substra.getProfile c name = none →
      Substra._load_profile (Substra.FileState.wellFormed c) name =
        Except.error (Substra.ConfigFault.profileNotFound name)) ∧
    Substra._load_profile Substra.FileState.absent name =
      Except.error Substra.ConfigFault.fileNotFound ∧
    Substra._read_config Substra.FileState.malformed =
      Except.error Substra.ConfigFault.configException ∧
    Substra.ConfigFault.fileNotFound ≠ Substra.ConfigFault.configException := by
  refine ⟨?_, ?_, rfl, rfl, by decide⟩
  · intro h
    cases fs with
    | malformed => exact Except.noConfusion h
    | absent =>
      simp only [Substra._add_profile, Except.ok.injEq, Prod.mk.injEq] at h
      obtain ⟨hfs, hcfg⟩ := h
      rw [← hfs]
      simp [Substra._load_profile, Substra._read_config,
        getProfile_setProfile_self]
    | wellFormed c =>
      simp only [Substra._add_profile, Except.ok.injEq, Prod.mk.injEq] at h
      obtain ⟨hfs, hcfg⟩ := h
      rw [← hfs]
      simp [Substra._load_profile, Substra._read_config,
        getProfile_setProfile_self]
  · intro c hc
    simp [Substra._load_profile, Substra._read_config, hc]

/-- C9 witness: adding `p1` to an absent store and loading it back returns
the created profile; loading `p1` from the default store raises
`ProfileNotFoundError`; loading from an absent store raises
`FileNotFoundError`. -/
theorem c9_profile_roundtrip_witness :
    Substra._load_profile
      (Substra.FileState.wellFormed
        (Substra.setProfile Substra.DEFAULT_CONFIG "p1"
          (Substra.create_profile "http://e" "1.0" false none none))) "p1" =
      Except.ok (Substra.create_profile "http://e" "1.0" false none none) ∧
    Substra._load_profile (Substra.FileState.wellFormed Substra.DEFAULT_CONFIG)
      "p1" = Except.error (Substra.ConfigFault.profileNotFound "p1") ∧
    Substra._load_profile Substra.FileState.absent "p1" =
      Except.error Substra.ConfigFault.fileNotFound := by
  refine ⟨?_, ?_, ?_⟩
  · exact (c9_profile_roundtrip Substra.FileState.absent _ "p1" "http://e"
      "1.0" false none none _).1 rfl
  · exact (c9_profile_roundtrip Substra.FileState.absent
      Substra.FileState.absent "p1" "http://e" "1.0" false none none
      []).2.1 Substra.DEFAULT_CONFIG (by decide)
  · exact (c9_profile_roundtrip Substra.FileState.absent
      Substra.FileState.absent "p1" "http://e" "1.0" false none none
      []).2.2.1

/-- C10: adding any profile when no config file exists yields a store that
also contains the built-in `default` profile with url
`http://127.0.0.1:8000`, version `0.0`, auth `False` and insecure `False`;
when the added name is itself `default`, the added values win. -/
theorem c10_default_profile_fresh_store (name url version : String)
    (insecure : Bool) (username password : Option String)
    (fs2 : Substra.FileState) (cfg : List (String × Substra.ProfileCfg))
    (h : Substra._add_profile Substra.FileState.absent name url version
      insecure username password = Except.ok (fs2, cfg)) :
    (name ≠ "default" →
      Substra.getProfile cfg "default" = some Substra.defaultProfile ∧
      Substra.getProfile cfg name =
        some (Substra.create_profile url version insecure username password)) ∧
    (name = "default" →
      Substra.getProfile cfg "default" =
        some (Substra.create_profile url version insecure username password)) ∧
    Substra.defaultProfile =
      { url := "http://127.0.0.1:8000", version := "0.0", insecure := false,
        auth := none } := by
  simp only [Substra._add_profile, Except.ok.injEq, Prod.mk.injEq] at h
  obtain ⟨hfs, hcfg⟩ := h
  rw [← hcfg]
  refine ⟨?_, ?_, rfl⟩
  · intro hne
    constructor
    · rw [getProfile_setProfile_other _ _ _ _ (Ne.symm hne)]
      rfl
    · exact getProfile_setProfile_self _ _ _
  · intro hdef
    subst hdef
    exact getProfile_setProfile_self _ _ _

/-- C10 witness: adding `p1` on an absent store leaves the built-in default
profile in the store next to `p1`. -/
theorem c10_default_profile_fresh_store_witness :
    Substra.getProfile
      (Substra.setProfile Substra.DEFAULT_CONFIG "p1"
        (Substra.create_profile "http://e" "1.0" false none none)) "default" =
      some Substra.defaultProfile ∧
    Substra.getProfile
      (Substra.setProfile Substra.DEFAULT_CONFIG "p1"
        (Substra.create_profile "http://e" "1.0" false none none)) "p1" =
      some (Substra.create_profile "http://e" "1.0" false none none) := by
  have h := c10_default_profile_fresh_store "p1" "http://e" "1.0" false none
    none
    (Substra.FileState.wellFormed
      (Substra.setProfile Substra.DEFAULT_CONFIG "p1"
        (Substra.create_profile "http://e" "1.0" false none none)))
    (Substra.setProfile Substra.DEFAULT_CONFIG "p1"
      (Substra.create_profile "http://e" "1.0" false none none)) rfl
  exact h.1 (by decide)
